import Mathlib

/-!
Verification of the NAD AVR client (custom_components/nad_avr).

The session core (`nad_client.py`) runs on a single-threaded cooperative
event loop: every code segment between two `await` points is atomic, and
all of `send_command` / `query` run under `self._lock`, so each such
segment is modelled as a pure function on an explicit session state.
Ghost trace fields (`acts`, `futLog`, `statusEvents`, `updateEvents`,
`written`, task-start counters) record the externally observable events
so that ordering and exactly-once properties can be stated.
-/

namespace NadAvr

/-! ### Python string primitives, as structural recursion on `List Char`
(the library versions use well-founded recursion over byte positions,
which the kernel cannot evaluate on literals). -/

/-- The whitespace characters stripped by Python `str.strip()`
(restricted to ASCII, which is all this protocol produces). -/
def pyWS (c : Char) : Bool :=
  c = ' ' || c = '\t' || c = '\n' || c = '\x0d' || c = '\x0b' || c = '\x0c'

/-- Python `str.strip()`. -/
def pyStrip (s : String) : String :=
  String.mk (((s.data.dropWhile pyWS).reverse.dropWhile pyWS).reverse)

/-- Split a character list at the first `=`: the parts before and
after it, or `none` when there is no `=`. -/
def breakAtEq : List Char → Option (List Char × List Char)
  | [] => none
  | c :: t =>
      if c = '=' then some ([], t)
      else
        match breakAtEq t with
        | some (a, b) => some (c :: a, b)
        | none => none

/-- Python `s.split("=", 1)` when `"=" in s`: the (key, value) pair
around the first `=`. -/
def splitEq (s : String) : Option (String × String) :=
  match breakAtEq s.data with
  | some (a, b) => some (String.mk a, String.mk b)
  | none => none

/-- Python `str.lower()` (ASCII). -/
def pyLower (s : String) : String :=
  String.mk (s.data.map Char.toLower)

/-- `a` is a prefix of `b` (character lists). -/
def leadsWith : List Char → List Char → Bool
  | [], _ => true
  | _ :: _, [] => false
  | a :: as, b :: bs => if a = b then leadsWith as bs else false

/-- Python `str.startswith`. -/
def pyStartsWith (s p : String) : Bool :=
  leadsWith p.data s.data

/-- Python `str.endswith`. -/
def pyEndsWith (s p : String) : Bool :=
  leadsWith p.data.reverse s.data.reverse

/-- Replace every non-overlapping occurrence of `old` (nonempty) by
`new`, scanning left to right; `fuel` bounds the recursion by the
length of the scanned list. -/
def listReplaceAux (old new : List Char) : Nat → List Char → List Char
  | 0, l => l
  | _, [] => []
  | fuel + 1, c :: t =>
      if leadsWith old (c :: t) ∧ old ≠ [] then
        new ++ listReplaceAux old new fuel (List.drop (old.length - 1) t)
      else c :: listReplaceAux old new fuel t

/-- Python `str.replace(old, new)` for nonempty `old`. -/
def pyReplace (s old new : String) : String :=
  String.mk (listReplaceAux old.data new.data s.data.length s.data)

/-- Lexicographic `≤` on strings by code point, as Python `sorted`
compares them. -/
def charListLe : List Char → List Char → Bool
  | [], _ => true
  | _ :: _, [] => false
  | a :: as, b :: bs => if a = b then charListLe as bs else decide (a < b)

/-- String `≤` for `sorted`. -/
def strLeB (a b : String) : Bool :=
  charListLe a.data b.data

/-- State of the single `asyncio.Future` held in `self._pending_query`:
`armed` = created, not done; the other two are `done()` futures. -/
inductive FutState where
  | armed
  | resolvedF
  | cancelledF
deriving DecidableEq, Repr

/-- Ghost log entry: what finally happened to a pending-query future. -/
inductive FutEvent where
  | resolved (r : String)
  | cancelled
deriving DecidableEq, Repr

/-- Ghost trace of atomic actions taken inside the exclusive write
section (`self._lock`). -/
inductive Act where
  | cancelPrev
  | arm
  | write (cmd : String)
deriving DecidableEq, Repr

/-- Shallow embedding of the `NADClient` instance state
(`nad_client.py`, `__init__`, lines 16-33), plus ghost traces. -/
structure ClientState where
  connected : Bool          -- self._connected
  hasReader : Bool          -- self._reader is not None
  hasWriter : Bool          -- self._writer is not None
  shouldReconnect : Bool    -- self._should_reconnect
  pending : Option FutState -- self._pending_query
  readTask : Bool           -- self._read_task alive (not None, not done)
  reconnectTask : Bool      -- self._reconnect_task alive (not None, not done)
  hasStatusCb : Bool        -- self._status_callback is not None
  hasUpdateCb : Bool        -- self._update_callback is not None
  statusEvents : List Bool  -- ghost: arguments of status_callback calls
  updateEvents : List String -- ghost: arguments of update_callback calls
  written : List String     -- ghost: commands written to the socket
  acts : List Act           -- ghost: actions inside the lock
  futLog : List FutEvent    -- ghost: outcomes of pending-query futures
  reconnectStarts : Nat     -- ghost: number of reconnect tasks created
  readStarts : Nat          -- ghost: number of reader tasks created
deriving DecidableEq, Repr

/-- At most one unfulfilled pending query: count of armed slots. -/
def ClientState.armedCount (s : ClientState) : Nat :=
  match s.pending with
  | some .armed => 1
  | _ => 0

/-- One reader iteration on a received frame (`_read_responses`,
lines 109-123): decode, strip; drop empty frames; if an unfulfilled
pending query exists, resolve it and clear the slot, otherwise forward
the frame to the update callback as unsolicited. -/
def readerOnFrame (s : ClientState) (data : String) : ClientState :=
  let response := pyStrip data
  if response = "" then s
  else
    match s.pending with
    | some .armed =>
        { s with pending := none,
                 futLog := s.futLog ++ [.resolved response] }
    | _ =>
        if s.hasUpdateCb then
          { s with updateEvents := s.updateEvents ++ [response] }
        else s

/-- `_handle_disconnect` (lines 136-152): if connected, drop to
disconnected, cancel an unfulfilled pending query, clear the slot,
notify the status callback with `False`, and, when reconnection is
enabled and no reconnect task is alive, start exactly one. -/
def handleDisconnect (s : ClientState) : ClientState :=
  if s.connected then
    let s1 : ClientState := { s with connected := false }
    let s2 : ClientState :=
      match s1.pending with
      | some .armed =>
          { s1 with pending := none, futLog := s1.futLog ++ [.cancelled] }
      | _ => { s1 with pending := none }
    let s3 : ClientState :=
      if s2.hasStatusCb then
        { s2 with statusEvents := s2.statusEvents ++ [false] }
      else s2
    if s3.shouldReconnect then
      if s3.reconnectTask then s3
      else { s3 with reconnectTask := true,
                     reconnectStarts := s3.reconnectStarts + 1 }
    else s3
  else s

/-- `connect` (lines 40-64), with the success of
`asyncio.open_connection` as a parameter: on success set the handles,
mark connected, start the reader task unless one is alive, notify
`True`; on failure mark disconnected and notify `False`. -/
def connect (s : ClientState) (ok : Bool) : ClientState × Bool :=
  if ok then
    let s1 : ClientState :=
      { s with hasReader := true, hasWriter := true, connected := true }
    let s2 : ClientState :=
      if s1.readTask then s1
      else { s1 with readTask := true, readStarts := s1.readStarts + 1 }
    let s3 : ClientState :=
      if s2.hasStatusCb then
        { s2 with statusEvents := s2.statusEvents ++ [true] }
      else s2
    (s3, true)
  else
    let s1 : ClientState := { s with connected := false }
    let s2 : ClientState :=
      if s1.hasStatusCb then
        { s1 with statusEvents := s1.statusEvents ++ [false] }
      else s1
    (s2, false)

/-- `disconnect` (lines 66-94): disable reconnection, cancel and await
the reconnect task, cancel and await the reader task — whose `finally`
clause runs `_handle_disconnect` before the task completes —, close the
writer and clear both handles. -/
def disconnect (s : ClientState) : ClientState :=
  let s1 : ClientState := { s with shouldReconnect := false }
  let s2 : ClientState := { s1 with reconnectTask := false }
  let s3 : ClientState :=
    if s2.readTask then { handleDisconnect s2 with readTask := false }
    else s2
  { s3 with connected := false, hasReader := false, hasWriter := false }

/-- `send_command` (lines 258-273), with the success of
`write`/`drain` as a parameter: under the lock, return `false` when not
connected; on success record the written command and return `true`; on
a write error run the disconnect transition and return `false`. -/
def send_command (s : ClientState) (cmd : String) (writeOk : Bool) :
    ClientState × Bool :=
  if s.connected ∧ s.hasWriter then
    if writeOk then
      ({ s with written := s.written ++ [cmd],
                acts := s.acts ++ [.write cmd] }, true)
    else
      (handleDisconnect { s with written := s.written ++ [cmd],
                                 acts := s.acts ++ [.write cmd] }, false)
  else (s, false)

/-- The atomic prefix of `query` under the lock (lines 282-294): cancel
an unfulfilled previous pending query, arm a fresh future into the
slot, then write the command. No `await` separates arming from the
write, so the whole prefix is one atomic section. -/
def queryArmWrite (s : ClientState) (cmd : String) : ClientState :=
  let s1 : ClientState :=
    match s.pending with
    | some .armed =>
        { s with futLog := s.futLog ++ [.cancelled],
                 acts := s.acts ++ [.cancelPrev] }
    | _ => s
  let s2 : ClientState :=
    { s1 with pending := some .armed, acts := s1.acts ++ [.arm] }
  { s2 with written := s2.written ++ [cmd], acts := s2.acts ++ [.write cmd] }

/-- Possible outcomes of the `await asyncio.wait_for(...)` in `query`:
the reader resolves the future with a (nonempty after stripping) frame,
the wait times out, the calling task is cancelled, or the write fails. -/
inductive QOutcome where
  | reply (raw : String)
  | timeout
  | callerCancelled
  | ioError
deriving DecidableEq, Repr

/-- `query` (lines 275-321): return `none` immediately when not
connected or a handle is missing; otherwise arm-then-write and settle
according to the outcome.  On `reply raw` the reader step resolves the
armed slot (assumes `pyStrip raw ≠ ""`, since the reader drops empty
frames).  On timeout the future is cancelled and the slot cleared, with
no disconnect.  On caller cancellation the slot is cleared.  On an I/O
error the future is cancelled, the slot cleared, and the disconnect
transition runs. -/
def query (s : ClientState) (cmd : String) (oc : QOutcome) :
    ClientState × Option String :=
  if s.connected ∧ s.hasWriter ∧ s.hasReader then
    let sw := queryArmWrite s cmd
    match oc with
    | .reply raw => (readerOnFrame sw raw, some (pyStrip raw))
    | .timeout =>
        let st : ClientState :=
          match sw.pending with
          | some .armed =>
              { sw with pending := none, futLog := sw.futLog ++ [.cancelled] }
          | _ => { sw with pending := none }
        (st, none)
    | .callerCancelled => ({ sw with pending := none }, none)
    | .ioError =>
        let st : ClientState :=
          match sw.pending with
          | some .armed =>
              { sw with pending := none, futLog := sw.futLog ++ [.cancelled] }
          | _ => { sw with pending := none }
        (handleDisconnect st, none)
  else (s, none)

/-! ### Device-info / source poller (`poll_device_info`, `poll_source_names`) -/

/-- Action performed by the poller, as observable timing behaviour:
either a `query()` call or an inter-query settle delay
(`asyncio.sleep`). -/
inductive PollAct where
  | query (cmd : String)
  | settle
deriving DecidableEq, Repr

/-- Python `response.split("=", 1)[1]` guarded by `"=" in response`:
the part after the first `=`, or `none` when there is no `=`. -/
def splitEqRest (r : String) : Option String :=
  (splitEq r).map Prod.snd

/-- Field extraction used by `poll_device_info` (lines 167-175 and
179-187): requires a truthy response containing `=`; the value is
stripped and must be nonempty. -/
def parseValue (resp : Option String) : Option String :=
  match resp with
  | none => none
  | some r =>
      if r = "" then none
      else
        match splitEqRest r with
        | none => none
        | some v => if pyStrip v = "" then none else some (pyStrip v)

/-- Result of `poll_device_info`: the fields it may set, plus the
ghost trace of poller actions. -/
structure DeviceInfoResult where
  model : Option String
  firmware : Option String
  pacts : List PollAct
deriving DecidableEq, Repr

/-- `poll_device_info` (lines 163-187): query the model, then the
firmware version, each with a 2.0 s timeout, parsing each reply as
`Key=Value`; a missing or unparseable reply leaves the field unset. -/
def poll_device_info (modelResp versionResp : Option String) :
    DeviceInfoResult :=
  { model := parseValue modelResp
    firmware := parseValue versionResp
    pacts := [.query "Main.Model?\r\n", .query "Main.Version?\r\n"] }

/-- The `SourceN.Enabled?` command string built at line 202. -/
def enabledQuery (n : Nat) : String :=
  "Source" ++ toString n ++ ".Enabled?\r\n"

/-- The `SourceN.Name?` command string built at line 225. -/
def nameQuery (n : Nat) : String :=
  "Source" ++ toString n ++ ".Name?\r\n"

/-- Truthy values for `SourceN.Enabled` (line 213). -/
def enabledWords : List String := ["yes", "on", "true", "1"]

/-- One iteration of the `poll_source_names` loop body (lines 197-247)
for source number `i`, given the enabled/name response oracles: returns
the `source_enabled` entries, the `source_names` entries, and the
poller actions contributed by this iteration. -/
def sourceIter (en nm : Nat → Option String) (i : Nat) :
    List (String × Bool) × List (String × String) × List PollAct :=
  let sid := toString i
  let enDictIsEn : List (String × Bool) × Bool :=
    match en i with
    | some r =>
        if r = "" then ([], false)
        else
          match splitEqRest r with
          | some v =>
              let b := pyLower (pyStrip v) ∈ enabledWords
              ([(sid, b)], b)
          | none => ([], false)
    | none => ([], false)
  let nmPart : List (String × String) × List PollAct :=
    if enDictIsEn.2 then
      let entries : List (String × String) :=
        match nm i with
        | some r =>
            if r = "" then []
            else
              match splitEqRest r with
              | some v => if pyStrip v = "" then [] else [(sid, pyStrip v)]
              | none => []
        | none => []
      (entries, [PollAct.query (nameQuery i)])
    else ([], [])
  (enDictIsEn.1, nmPart.1, PollAct.query (enabledQuery i) :: nmPart.2)

/-- The `for source_num in range(1, source_count + 1)` loop of
`poll_source_names`, written as structural recursion from index `i`
over `k` remaining sources, accumulating in program order. -/
def pollSourceLoop (en nm : Nat → Option String) (i : Nat) :
    Nat → List (String × Bool) × List (String × String) × List PollAct
  | 0 => ([], [], [])
  | k + 1 =>
      let st := sourceIter en nm i
      let rest := pollSourceLoop en nm (i + 1) k
      (st.1 ++ rest.1, st.2.1 ++ rest.2.1, st.2.2 ++ rest.2.2)

/-- `poll_source_names` (lines 189-256) with its default
`source_count = 9` made explicit: poll sources `1 .. count`. -/
def poll_source_names (en nm : Nat → Option String) (count : Nat) :
    List (String × Bool) × List (String × String) × List PollAct :=
  pollSourceLoop en nm 1 count

/-- Poller action trace of the whole device-info/source poll, in the
order `_connection_status_changed` runs it (`media_player.py`,
lines 119 and 132): `poll_device_info` first, then
`poll_source_names`. -/
def pollAllActs (en nm : Nat → Option String) (count : Nat) :
    List PollAct :=
  (poll_device_info none none).pacts ++ (poll_source_names en nm count).2.2

/-! ### Media player (`media_player.py`) and constants (`const.py`) -/

/-- `VOLUME_MIN_DB` (`const.py`, line 43). -/
def VOLUME_MIN_DB : Int := -90

/-- `VOLUME_MAX_DB` (`const.py`, line 44). -/
def VOLUME_MAX_DB : Int := 0

/-- `VOLUME_RANGE_DB` (`const.py`, line 45). -/
def VOLUME_RANGE_DB : Int := VOLUME_MAX_DB - VOLUME_MIN_DB

/-- The default `SOURCES` table (`const.py`, lines 27-37), as an
insertion-ordered association list like a Python dict. -/
def SOURCES : List (String × String) :=
  [("1", "Source 1"), ("2", "Source 2"), ("3", "Source 3"),
   ("4", "Source 4"), ("5", "Source 5"), ("6", "Source 6"),
   ("7", "Source 7"), ("8", "Source 8"), ("9", "Source 9")]

/-- Python-dict assignment `d[k] = v` on an insertion-ordered
association list: update in place when the key exists, else append. -/
def dictInsert {β : Type} : List (String × β) → String → β → List (String × β)
  | [], k, v => [(k, v)]
  | (k', v') :: t, k, v =>
      if k' = k then (k', v) :: t else (k', v') :: dictInsert t k v

/-- Insert into a `≤`-sorted list of strings (helper for `sorted`). -/
def insertSorted (x : String) : List String → List String
  | [] => [x]
  | y :: t => if strLeB x y then x :: y :: t else y :: insertSorted x t

/-- Python `sorted` on string keys (lexicographic). -/
def sortStrings (l : List String) : List String :=
  l.foldr insertSorted []

/-- Python `int(value)` on a stripped decimal string: optional sign
followed by at least one digit, else a `ValueError` (`none`). -/
def digitsVal (l : List Char) : Option Nat :=
  if l ≠ [] ∧ l.all Char.isDigit then
    some (l.foldl (fun a c => a * 10 + (c.toNat - 48)) 0)
  else none

/-- Parse a Python `int(...)` literal. -/
def pyParseInt (s : String) : Option Int :=
  match s.data with
  | '-' :: rest => (digitsVal rest).map (fun n => -(n : Int))
  | '+' :: rest => (digitsVal rest).map (fun n => (n : Int))
  | l => (digitsVal l).map (fun n => (n : Int))

/-- Entity state of `NADAVRMediaPlayer`, restricted to the fields the
update path touches, together with the shared client dictionaries
`source_names` / `source_enabled` it mutates. -/
structure PlayerView where
  powerOn : Bool                     -- _attr_state == ON
  volumeLevel : ℚ                    -- _attr_volume_level
  muted : Bool                       -- _attr_is_volume_muted
  source : Option String             -- _attr_source
  sourceList : List String           -- _attr_source_list
  names : List (String × String)     -- client.source_names
  enabled : List (String × Bool)     -- client.source_enabled
deriving DecidableEq, Repr

/-- Initial entity state (`__init__`, lines 77-82, with fresh client
dictionaries). -/
def initPlayer : PlayerView :=
  { powerOn := false
    volumeLevel := 0
    muted := false
    source := none
    sourceList := SOURCES.map Prod.snd
    names := []
    enabled := [] }

/-- The ids of the enabled sources, as computed at lines 145-149:
string-sorted keys of `source_enabled` filtered by their flag. -/
def enabledSourceIds (p : PlayerView) : List String :=
  (sortStrings (p.enabled.map Prod.fst)).filter
    (fun sid => ((p.enabled.lookup sid).getD false))

/-- `_update_source_list` (lines 141-164): with enabled info, list the
polled (or default) names of the enabled sources in sorted-key order;
with only names, list all polled names; otherwise the defaults. -/
def updateSourceList (p : PlayerView) : PlayerView :=
  if p.enabled ≠ [] then
    let list := (enabledSourceIds p).map (fun sid =>
      match p.names.lookup sid with
      | some n =>
          if n = "" then ((SOURCES.lookup sid).getD ("Source " ++ sid))
          else n
      | none => ((SOURCES.lookup sid).getD ("Source " ++ sid)))
    { p with sourceList := list }
  else if p.names ≠ [] then
    { p with sourceList := p.names.map Prod.snd }
  else
    { p with sourceList := SOURCES.map Prod.snd }

/-- `_handle_update` (lines 166-236): parse `Key=Value`, dispatch on
the key, and mutate the entity state and client dictionaries. -/
def handleUpdate (p : PlayerView) (message : String) : PlayerView :=
  match splitEq message with
  | none => p
  | some kv =>
      let key := pyStrip kv.1
      let value := pyStrip kv.2
      if key = "Main.Power" then
        { p with powerOn := pyLower value = "on" }
      else if key = "Main.Volume" then
        match pyParseInt value with
        | some db =>
            let v : ℚ := max 0 (min 1 (((db : ℚ) - (VOLUME_MIN_DB : ℚ)) /
              (VOLUME_RANGE_DB : ℚ)))
            { p with volumeLevel := v }
        | none => p
      else if key = "Main.Mute" then
        { p with muted := pyLower value = "on" }
      else if key = "Main.Source" then
        let src := (p.names.lookup value).getD
          ((SOURCES.lookup value).getD value)
        { p with source := some src }
      else if pyStartsWith key "Source" ∧ pyEndsWith key ".Enabled" then
        let num := pyReplace (pyReplace key "Source" "") ".Enabled" ""
        let isEn := pyLower value ∈ enabledWords
        updateSourceList { p with enabled := dictInsert p.enabled num isEn }
      else if pyStartsWith key "Source" ∧ pyEndsWith key ".Name" then
        let num := pyReplace (pyReplace key "Source" "") ".Name" ""
        if value ≠ "" then
          updateSourceList { p with names := dictInsert p.names num value }
        else p
      else p

/-- Python `int()` truncation toward zero, on exact rationals. -/
def pyInt (q : ℚ) : Int :=
  if 0 ≤ q then ⌊q⌋ else ⌈q⌉

/-- Volume normalization (`_handle_update`, lines 186-189 and
`async_update`, lines 263-265):
`max(0.0, min(1.0, (volume_db - VOLUME_MIN_DB) / VOLUME_RANGE_DB))`. -/
def toUnit (db : Int) : ℚ :=
  max 0 (min 1 (((db : ℚ) - (VOLUME_MIN_DB : ℚ)) / (VOLUME_RANGE_DB : ℚ)))

/-- Volume de-normalization (`async_set_volume_level`, line 308):
`int((volume * VOLUME_RANGE_DB) + VOLUME_MIN_DB)`. -/
def toDb (u : ℚ) : Int :=
  pyInt (u * (VOLUME_RANGE_DB : ℚ) + (VOLUME_MIN_DB : ℚ))

/-! ### Shared concrete states for witnesses -/

/-- A connected session with both callbacks registered and no pending
query, as after a successful `connect`. -/
def sConn : ClientState :=
  { connected := true, hasReader := true, hasWriter := true
    shouldReconnect := true, pending := none
    readTask := true, reconnectTask := false
    hasStatusCb := true, hasUpdateCb := true
    statusEvents := [], updateEvents := [], written := []
    acts := [], futLog := [], reconnectStarts := 0, readStarts := 0 }

/-- A connected session with an armed pending query. -/
def sConnPending : ClientState := { sConn with pending := some .armed }

/-- A disconnected session. -/
def sDisc : ClientState :=
  { sConn with connected := false, hasReader := false, hasWriter := false }

/-! ### Helper lemmas -/

theorem handleDisconnect_effects (s : ClientState)
    (hc : s.connected = true) :
    (s.hasStatusCb = true →
      (handleDisconnect s).statusEvents = s.statusEvents ++ [false]) ∧
    (handleDisconnect s).connected = false ∧
    (handleDisconnect s).pending = none ∧
    (s.pending = some .armed →
      (handleDisconnect s).futLog = s.futLog ++ [.cancelled]) ∧
    (s.shouldReconnect = true → (handleDisconnect s).reconnectTask = true) ∧
    (s.shouldReconnect = true → s.reconnectTask = true →
      (handleDisconnect s).reconnectStarts = s.reconnectStarts) ∧
    (s.shouldReconnect = false →
      (handleDisconnect s).reconnectTask = s.reconnectTask ∧
      (handleDisconnect s).reconnectStarts = s.reconnectStarts) := by
  obtain ⟨c, hr, hw, sr, p, rt, ct, cb, ub, se, ue, wr, ac, fl, rs, ds⟩ := s
  simp only at hc
  subst hc
  rcases p with _ | f
  · cases cb <;> cases sr <;> cases ct <;> simp [handleDisconnect]
  · rcases f <;> cases cb <;> cases sr <;> cases ct <;>
      simp [handleDisconnect]

theorem handleDisconnect_not_connected (s : ClientState)
    (hc : s.connected = false) : handleDisconnect s = s := by
  simp [handleDisconnect, hc]

/-! ### Claims -/

/-- C4: every loss of an established connection, funnelled through
`_handle_disconnect`, yields exactly one connectivity-changed(false)
notification, clears and cancels an armed pending query, and — when
reconnection is enabled — leaves exactly one reconnection task running,
starting none when one is already active; running the transition again
changes nothing (so concurrent loss paths produce one notification). -/
theorem connection_loss_transition (s : ClientState)
    (hc : s.connected = true) (hcb : s.hasStatusCb = true) :
    (handleDisconnect s).statusEvents = s.statusEvents ++ [false] ∧
    (handleDisconnect s).connected = false ∧
    (handleDisconnect s).pending = none ∧
    (s.pending = some .armed →
      (handleDisconnect s).futLog = s.futLog ++ [.cancelled]) ∧
    (s.shouldReconnect = true → (handleDisconnect s).reconnectTask = true) ∧
    (s.shouldReconnect = true → s.reconnectTask = true →
      (handleDisconnect s).reconnectStarts = s.reconnectStarts) ∧
    (s.shouldReconnect = false →
      (handleDisconnect s).reconnectTask = s.reconnectTask ∧
      (handleDisconnect s).reconnectStarts = s.reconnectStarts) ∧
    handleDisconnect (handleDisconnect s) = handleDisconnect s := by
  obtain ⟨h1, h2, h3, h4, h5, h6, h7⟩ := handleDisconnect_effects s hc
  exact ⟨h1 hcb, h2, h3, h4, h5, h6, h7, handleDisconnect_not_connected _ h2⟩

theorem connection_loss_transition_witness :
    sConn.connected = true ∧ sConn.hasStatusCb = true ∧
    (handleDisconnect sConn).statusEvents = [false] ∧
    (handleDisconnect sConn).reconnectTask = true := by
  refine ⟨rfl, rfl, ?_, ?_⟩
  · exact (connection_loss_transition sConn rfl rfl).1
  · exact (connection_loss_transition sConn rfl rfl).2.2.2.2.1 rfl

/-- C5: `send_command` always returns a boolean: `false` without side
effects when not connected, `true` after recording the write on
success, and `false` after running the same disconnect transition as
the read loop (notification, cancelled pending query, reconnection) on
a write error. -/
theorem send_command_spec (s : ClientState) (cmd : String) (ok : Bool) :
    (¬(s.connected = true ∧ s.hasWriter = true) →
      send_command s cmd ok = (s, false)) ∧
    (s.connected = true → s.hasWriter = true → ok = true →
      send_command s cmd ok =
        ({ s with written := s.written ++ [cmd],
                  acts := s.acts ++ [.write cmd] }, true)) ∧
    (s.connected = true → s.hasWriter = true → ok = false →
      (send_command s cmd ok).2 = false ∧
      (send_command s cmd ok).1 =
        handleDisconnect { s with written := s.written ++ [cmd],
                                  acts := s.acts ++ [.write cmd] } ∧
      (s.hasStatusCb = true →
        (send_command s cmd ok).1.statusEvents = s.statusEvents ++ [false]) ∧
      (send_command s cmd ok).1.pending = none ∧
      (s.shouldReconnect = true →
        (send_command s cmd ok).1.reconnectTask = true)) := by
  refine ⟨?_, ?_, ?_⟩
  · intro h
    simp only [send_command]
    rw [if_neg]
    simpa using h
  · intro hc hw hk
    subst hk
    simp [send_command, hc, hw]
  · intro hc hw hk
    subst hk
    have hc' : ({ s with written := s.written ++ [cmd], acts := s.acts ++ [.write cmd] } : ClientState).connected = true := hc
    have H := handleDisconnect_effects _ hc'
    refine ⟨by simp [send_command, hc, hw], by simp [send_command, hc, hw],
      ?_, ?_, ?_⟩
    · intro hcb
      have h1 := H.1 hcb
      simpa [send_command, hc, hw] using h1
    · have h1 := H.2.2.1
      simpa [send_command, hc, hw] using h1
    · intro hsr
      have h1 := H.2.2.2.2.1 hsr
      simpa [send_command, hc, hw] using h1

theorem send_command_spec_witness :
    send_command sConn "Main.Power=On\r\n" true =
      ({ sConn with written := ["Main.Power=On\r\n"],
                    acts := [.write "Main.Power=On\r\n"] }, true) := by
  have h := (send_command_spec sConn "Main.Power=On\r\n" true).2.1 rfl rfl rfl
  simpa [sConn] using h

/-- C10: `query` invoked while not connected or with a socket handle
missing returns `none` immediately with the state entirely unchanged:
nothing written, no slot armed or cancelled, no callback invoked. -/
theorem query_not_connected_noop (s : ClientState) (cmd : String)
    (oc : QOutcome)
    (h : ¬(s.connected = true ∧ s.hasWriter = true ∧ s.hasReader = true)) :
    query s cmd oc = (s, none) := by
  simp only [query]
  rw [if_neg]
  simpa using h

theorem query_not_connected_noop_witness :
    query sDisc "Main.Power?\r\n" .timeout = (sDisc, none) :=
  query_not_connected_noop sDisc "Main.Power?\r\n" .timeout (by decide)

/-- C6: `disconnect` disables reconnection, stops both background
tasks, drops the connection and clears both socket handles; it is
idempotent, so a second call changes nothing and in particular emits no
further notifications. -/
theorem disconnect_idempotent (s : ClientState) :
    (disconnect s).shouldReconnect = false ∧
    (disconnect s).readTask = false ∧
    (disconnect s).reconnectTask = false ∧
    (disconnect s).connected = false ∧
    (disconnect s).hasReader = false ∧
    (disconnect s).hasWriter = false ∧
    disconnect (disconnect s) = disconnect s ∧
    (disconnect (disconnect s)).statusEvents = (disconnect s).statusEvents := by
  obtain ⟨c, hr, hw, sr, p, rt, ct, cb, ub, se, ue, wr, ac, fl, rs, ds⟩ := s
  rcases p with _ | f
  · cases rt <;> cases c <;> cases cb <;>
      simp [disconnect, handleDisconnect]
  · rcases f <;> cases rt <;> cases c <;> cases cb <;>
      simp [disconnect, handleDisconnect]

/-- C1: inside the exclusive section of `query`, the pending-query slot
is armed strictly before the command bytes are written (the two actions
are adjacent in the atomic lock-held prefix), the slot is armed when
the write completes, and the reader step on the reply resolves the
armed slot rather than forwarding the frame as unsolicited. -/
theorem query_arm_before_write (s : ClientState) (cmd raw : String)
    (hc : s.connected = true) (hw : s.hasWriter = true)
    (hr : s.hasReader = true) (hraw : (pyStrip raw) ≠ "") :
    (queryArmWrite s cmd).pending = some .armed ∧
    (∃ l, (queryArmWrite s cmd).acts = l ++ [.arm, .write cmd]) ∧
    query s cmd (.reply raw) =
      (readerOnFrame (queryArmWrite s cmd) raw, some (pyStrip raw)) ∧
    (readerOnFrame (queryArmWrite s cmd) raw).futLog =
      (queryArmWrite s cmd).futLog ++ [.resolved (pyStrip raw)] ∧
    (readerOnFrame (queryArmWrite s cmd) raw).updateEvents =
      (queryArmWrite s cmd).updateEvents := by
  have hpend : (queryArmWrite s cmd).pending = some .armed := by
    rcases hp : s.pending with _ | f
    · simp [queryArmWrite, hp]
    · rcases f <;> simp [queryArmWrite, hp]
  refine ⟨hpend, ?_, ?_, ?_, ?_⟩
  · rcases hp : s.pending with _ | f
    · exact ⟨s.acts, by simp [queryArmWrite, hp]⟩
    · rcases f
      · exact ⟨s.acts ++ [.cancelPrev], by simp [queryArmWrite, hp]⟩
      · exact ⟨s.acts, by simp [queryArmWrite, hp]⟩
      · exact ⟨s.acts, by simp [queryArmWrite, hp]⟩
  · simp [query, hc, hw, hr]
  · simp [readerOnFrame, hraw, hpend]
  · simp [readerOnFrame, hraw, hpend]

theorem query_arm_before_write_witness :
    (queryArmWrite sConn "Main.Power?\r\n").pending = some .armed ∧
    (readerOnFrame (queryArmWrite sConn "Main.Power?\r\n")
      "Main.Power=On\r\n").updateEvents =
      (queryArmWrite sConn "Main.Power?\r\n").updateEvents := by
  have h := query_arm_before_write sConn "Main.Power?\r\n" "Main.Power=On\r\n"
    rfl rfl rfl (by decide)
  exact ⟨h.1, h.2.2.2.2⟩

/-- C2: the session holds at most one unfulfilled pending query at any
instant (a single slot), and arming a new query while one is armed
cancels the previous waiter — its future ends cancelled, never resolved
— and a frame arriving afterwards resolves only the new slot. -/
theorem query_supersedes_pending (s : ClientState) (cmd raw : String)
    (hc : s.connected = true) (hw : s.hasWriter = true)
    (hr : s.hasReader = true) (hp : s.pending = some .armed)
    (hraw : (pyStrip raw) ≠ "") :
    (∀ t : ClientState, t.armedCount ≤ 1) ∧
    (queryArmWrite s cmd).futLog = s.futLog ++ [.cancelled] ∧
    (queryArmWrite s cmd).pending = some .armed ∧
    (readerOnFrame (queryArmWrite s cmd) raw).futLog =
      s.futLog ++ [.cancelled, .resolved (pyStrip raw)] := by
  have hpend : (queryArmWrite s cmd).pending = some .armed := by
    simp [queryArmWrite, hp]
  refine ⟨?_, ?_, hpend, ?_⟩
  · intro t
    rcases ht : t.pending with _ | f
    · simp [ClientState.armedCount, ht]
    · rcases f <;> simp [ClientState.armedCount, ht]
  · simp [queryArmWrite, hp]
  · simp [readerOnFrame, hraw, hpend, queryArmWrite, hp]

theorem query_supersedes_pending_witness :
    (queryArmWrite sConnPending "Main.Mute?\r\n").futLog = [.cancelled] ∧
    (readerOnFrame (queryArmWrite sConnPending "Main.Mute?\r\n")
      "Main.Mute=Off\r\n").futLog = [.cancelled, .resolved "Main.Mute=Off"] := by
  have h := query_supersedes_pending sConnPending "Main.Mute?\r\n"
    "Main.Mute=Off\r\n" rfl rfl rfl rfl (by decide)
  refine ⟨?_, ?_⟩
  · have h2 := h.2.1
    simpa [sConnPending, sConn] using h2
  · have h3 := h.2.2.2
    simpa [sConnPending, sConn] using h3

/-- C3: a `query` that times out returns `none`, cancels and clears the
pending slot, and leaves the connection state untouched (still
connected, no notification, no reconnection); a frame arriving after
the timeout is forwarded to the update callback as unsolicited and
never bound to the timed-out call. -/
theorem query_timeout_is_local (s : ClientState) (cmd raw : String)
    (hc : s.connected = true) (hw : s.hasWriter = true)
    (hr : s.hasReader = true) (hp : s.pending = none)
    (hu : s.hasUpdateCb = true) (hraw : (pyStrip raw) ≠ "") :
    (query s cmd .timeout).2 = none ∧
    (query s cmd .timeout).1.pending = none ∧
    (query s cmd .timeout).1.futLog = s.futLog ++ [.cancelled] ∧
    (query s cmd .timeout).1.connected = true ∧
    (query s cmd .timeout).1.statusEvents = s.statusEvents ∧
    (query s cmd .timeout).1.reconnectTask = s.reconnectTask ∧
    (query s cmd .timeout).1.reconnectStarts = s.reconnectStarts ∧
    (readerOnFrame (query s cmd .timeout).1 raw).updateEvents =
      s.updateEvents ++ [(pyStrip raw)] ∧
    (readerOnFrame (query s cmd .timeout).1 raw).futLog =
      (query s cmd .timeout).1.futLog := by
  have hq : query s cmd .timeout =
      ({ s with pending := none,
                written := s.written ++ [cmd],
                acts := s.acts ++ [.arm, .write cmd],
                futLog := s.futLog ++ [.cancelled] }, none) := by
    simp [query, hc, hw, hr, queryArmWrite, hp]
  rw [hq]
  simp [readerOnFrame, hraw, hc, hu]

theorem query_timeout_is_local_witness :
    (query sConn "Main.Source?\r\n" .timeout).2 = none ∧
    (query sConn "Main.Source?\r\n" .timeout).1.connected = true ∧
    (readerOnFrame (query sConn "Main.Source?\r\n" .timeout).1
      "Main.Source=3\r\n").updateEvents = ["Main.Source=3"] := by
  have h := query_timeout_is_local sConn "Main.Source?\r\n"
    "Main.Source=3\r\n" rfl rfl rfl rfl rfl (by decide)
  refine ⟨h.1, h.2.2.2.1, ?_⟩
  have h8 := h.2.2.2.2.2.2.2.1
  simpa [sConn] using h8

/-! ### Poller claims -/

theorem sourceIter_acts_cases (en nm : Nat → Option String) (j : Nat) :
    (sourceIter en nm j).2.2 = [PollAct.query (enabledQuery j)] ∨
    (sourceIter en nm j).2.2 =
      [PollAct.query (enabledQuery j), PollAct.query (nameQuery j)] := by
  rcases h : en j with _ | r
  · left; simp [sourceIter, h]
  · by_cases hr : r = ""
    · left; simp [sourceIter, h, hr]
    · rcases hsp : splitEqRest r with _ | v
      · left; simp [sourceIter, h, hr, hsp]
      · by_cases hen : pyLower (pyStrip v) ∈ enabledWords
        · right; simp [sourceIter, h, hr, hsp, hen]
        · left; simp [sourceIter, h, hr, hsp, hen]

theorem pollSourceLoop_eq (en nm : Nat → Option String) (k i : Nat) :
    pollSourceLoop en nm i k =
      ((List.range' i k).flatMap fun j => (sourceIter en nm j).1,
       (List.range' i k).flatMap fun j => (sourceIter en nm j).2.1,
       (List.range' i k).flatMap fun j => (sourceIter en nm j).2.2) := by
  induction k generalizing i with
  | zero => simp [pollSourceLoop]
  | succ k ih =>
      rw [List.range'_succ]
      simp [pollSourceLoop, ih]

/-- C7 counterexample: the claim that a settle delay separates
consecutive poller queries is false — with all responses timing out,
the very first two actions of the combined device-info/source poll are
two adjacent `query` calls with nothing in between. -/
theorem poller_no_settle_delay :
    ¬ (∀ i c1 c2,
        (pollAllActs (fun _ => none) (fun _ => none) 9).get? i =
          some (.query c1) →
        (pollAllActs (fun _ => none) (fun _ => none) 9).get? (i + 1) =
          some (.query c2) →
        False) := by
  intro h
  exact h 0 "Main.Model?\r\n" "Main.Version?\r\n" rfl rfl

/-- C7 (amended): the poller issues its queries strictly sequentially
— model, firmware version, then for each source index from 1 up to the
bounded count the enabled query and, only when that source parsed as
enabled, the name query — with no settle delay inserted anywhere; a
query that times out contributes no entry for its source and polling
continues with every remaining index. -/
theorem poller_sequential (en nm : Nat → Option String) (count n : Nat)
    (hn1 : 1 ≤ n) (hn2 : n ≤ count) (htimeout : en n = none) :
    (poll_source_names en nm count).1 =
      ((List.range' 1 count).flatMap fun j => (sourceIter en nm j).1) ∧
    (poll_source_names en nm count).2.1 =
      ((List.range' 1 count).flatMap fun j => (sourceIter en nm j).2.1) ∧
    pollAllActs en nm count =
      [.query "Main.Model?\r\n", .query "Main.Version?\r\n"] ++
        ((List.range' 1 count).flatMap fun j => (sourceIter en nm j).2.2) ∧
    (sourceIter en nm n).2.2 = [.query (enabledQuery n)] ∧
    (sourceIter en nm n).1 = [] ∧
    (sourceIter en nm n).2.1 = [] ∧
    PollAct.settle ∉ pollAllActs en nm count ∧
    (poll_device_info none none).model = none ∧
    (poll_device_info none none).firmware = none := by
  have hloop := pollSourceLoop_eq en nm count 1
  have hacts : pollAllActs en nm count =
      [.query "Main.Model?\r\n", .query "Main.Version?\r\n"] ++
        ((List.range' 1 count).flatMap fun j => (sourceIter en nm j).2.2) := by
    simp [pollAllActs, poll_device_info, poll_source_names, hloop]
  refine ⟨?_, ?_, hacts, ?_, ?_, ?_, ?_, ?_, ?_⟩
  · simp [poll_source_names, hloop]
  · simp [poll_source_names, hloop]
  · simp [sourceIter, htimeout]
  · simp [sourceIter, htimeout]
  · simp [sourceIter, htimeout]
  · rw [hacts]
    intro hmem
    rcases List.mem_append.1 hmem with h1 | h2
    · simp at h1
    · rcases List.mem_flatMap.1 h2 with ⟨j, _, hja⟩
      rcases sourceIter_acts_cases en nm j with hc | hc <;>
        rw [hc] at hja <;> simp at hja
  · simp [poll_device_info, parseValue]
  · simp [poll_device_info, parseValue]

theorem poller_sequential_witness :
    (1 ≤ 2 ∧ 2 ≤ 3) ∧
    (sourceIter (fun _ => none) (fun _ => none) 2).1 = [] ∧
    PollAct.settle ∉ pollAllActs (fun _ => none) (fun _ => none) 3 := by
  have h := poller_sequential (fun _ => none) (fun _ => none) 3 2
    (by decide) (by decide) rfl
  exact ⟨⟨by decide, by decide⟩, h.2.2.2.2.1, h.2.2.2.2.2.2.1⟩

/-! ### Media player claims -/

/-- C8: processing the unsolicited frames `Source3.Enabled=Yes` then
`Source3.Name=Aux` marks source "3" enabled with name "Aux" (and lists
it); a later `Source3.Enabled=No` removes source 3 from the
enabled-sources listing while its name stays cached in the
directory. -/
theorem source3_enable_name_disable_scenario :
    ((handleUpdate (handleUpdate initPlayer "Source3.Enabled=Yes")
        "Source3.Name=Aux").enabled.lookup "3" = some true ∧
      (handleUpdate (handleUpdate initPlayer "Source3.Enabled=Yes")
        "Source3.Name=Aux").names.lookup "3" = some "Aux" ∧
      (handleUpdate (handleUpdate initPlayer "Source3.Enabled=Yes")
        "Source3.Name=Aux").sourceList = ["Aux"]) ∧
    ((handleUpdate (handleUpdate (handleUpdate initPlayer
        "Source3.Enabled=Yes") "Source3.Name=Aux")
        "Source3.Enabled=No").enabled.lookup "3" = some false ∧
      enabledSourceIds (handleUpdate (handleUpdate (handleUpdate initPlayer
        "Source3.Enabled=Yes") "Source3.Name=Aux")
        "Source3.Enabled=No") = [] ∧
      (handleUpdate (handleUpdate (handleUpdate initPlayer
        "Source3.Enabled=Yes") "Source3.Name=Aux")
        "Source3.Enabled=No").sourceList = [] ∧
      (handleUpdate (handleUpdate (handleUpdate initPlayer
        "Source3.Enabled=Yes") "Source3.Name=Aux")
        "Source3.Enabled=No").names.lookup "3" = some "Aux") := by
  decide

/-- C9: for every integer `db` in [−90, 0], de-normalizing the clamped
normalization of `db` returns a value within 1 of `db` (with exact
arithmetic it returns `db` itself). -/
theorem volume_roundtrip (db : Int) (h1 : -90 ≤ db) (h2 : db ≤ 0) :
    (toDb (toUnit db) - db).natAbs ≤ 1 := by
  have h90 : (VOLUME_RANGE_DB : ℚ) = 90 := by
    norm_num [VOLUME_RANGE_DB, VOLUME_MAX_DB, VOLUME_MIN_DB]
  have hmin : (VOLUME_MIN_DB : ℚ) = -90 := by norm_num [VOLUME_MIN_DB]
  have h1q : (-90 : ℚ) ≤ (db : ℚ) := by exact_mod_cast h1
  have h2q : (db : ℚ) ≤ 0 := by exact_mod_cast h2
  have h0 : (0 : ℚ) ≤ ((db : ℚ) + 90) / 90 := by
    apply div_nonneg _ (by norm_num)
    linarith
  have hle1 : ((db : ℚ) + 90) / 90 ≤ 1 := by
    rw [div_le_one (by norm_num)]
    linarith
  have hunit : toUnit db = ((db : ℚ) + 90) / 90 := by
    unfold toUnit
    rw [hmin, h90, sub_neg_eq_add, min_eq_right hle1, max_eq_right h0]
  have hval : ((db : ℚ) + 90) / 90 * 90 + (-90) = (db : ℚ) := by
    field_simp
  have hdb : toDb (((db : ℚ) + 90) / 90) = db := by
    unfold toDb pyInt
    rw [h90, hmin, hval]
    by_cases h : (0 : ℚ) ≤ (db : ℚ)
    · rw [if_pos h, Int.floor_intCast]
    · rw [if_neg h, Int.ceil_intCast]
  rw [hunit, hdb]
  simp

theorem volume_roundtrip_witness :
    (-90 ≤ (-30 : Int)) ∧ ((-30 : Int) ≤ 0) ∧
    (toDb (toUnit (-30)) - (-30)).natAbs ≤ 1 :=
  ⟨by decide, by decide, volume_roundtrip (-30) (by decide) (by decide)⟩

end NadAvr
